import Mathlib

/-!
Verification of the Talabat UAE orders analysis pipeline
(`talabat_analysis.py`) against its specification.

The script is a linear pandas pipeline: load a CSV, derive an
`order_date` column, explore the data, aggregate daily and per-city
order counts, render two charts, and report business insights.  We give
a shallow embedding of the pipeline: the order table is a list of rows,
pandas `groupby`/`value_counts` become grouping over sorted distinct
keys (dropping null keys, as pandas does), `rolling(7).mean()` becomes
an explicit trailing-window mean, `nlargest` becomes a descending sort
followed by `take`, and the fallible stages (file reading, timestamp
parsing, chart rendering) run in `Except`.
-/

namespace Talabat

/-- Days are encoded as days-since-epoch, timestamps as seconds-since-epoch. -/
abbrev Date := Nat

/-- One parsed CSV row before `load_and_prepare_data` runs.
`order_datetime` is the result of parsing the timestamp cell (`none`
means `pd.to_datetime` would raise).  Categorical cells may be missing
(`none` models a NaN cell), which pandas grouping silently drops. -/
structure RawOrderRow where
  order_datetime : Option Nat
  city : Option String
  order_value : ℚ
  delivery_time_min : ℚ
  delivery_fee : ℚ
  payment_method : Option String
  promo_code_used : Option Bool
  restaurant_category : Option String
deriving DecidableEq, Repr

/-- A row of the prepared order table: `order_datetime` parsed and the
derived `order_date` column added by the loader. -/
structure OrderRow where
  order_datetime : Nat
  order_date : Date
  city : Option String
  order_value : ℚ
  delivery_time_min : ℚ
  delivery_fee : ℚ
  payment_method : Option String
  promo_code_used : Option Bool
  restaurant_category : Option String
deriving DecidableEq, Repr

/-- Failure modes of the pipeline: I/O on the input file, unparsable
timestamp column, chart rendering/output failure. -/
inductive Err where
  | ioError
  | formatError
  | renderError
deriving DecidableEq, Repr

def secondsPerDay : Nat := 86400

/-- Derivation done by the loader on one row: keep the parsed timestamp
and add `order_date = order_datetime` truncated to the calendar day. -/
def prepareRow (r : RawOrderRow) : Option OrderRow :=
  r.order_datetime.map fun t =>
    ⟨t, t / secondsPerDay, r.city, r.order_value, r.delivery_time_min,
     r.delivery_fee, r.payment_method, r.promo_code_used, r.restaurant_category⟩

/-- `load_and_prepare_data`: parse the timestamp column
(`pd.to_datetime` raises on an unparsable value, aborting the load) and
add the derived `order_date` column. -/
def load_and_prepare_data (rows : List RawOrderRow) : Except Err (List OrderRow) :=
  if rows.all (fun r => r.order_datetime.isSome)
  then .ok (rows.filterMap prepareRow)
  else .error .formatError

/-- Diagnostics printed by `explore_data`: per-column null counts for
the categorical columns and the three data-quality checks. -/
structure ExploreOut where
  nullCity : Nat
  nullPayment : Nat
  nullPromo : Nat
  nullCategory : Nat
  zeroOrderValues : Nat
  negativeDeliveryTimes : Nat
  negativeDeliveryFees : Nat
deriving DecidableEq, Repr

/-- `explore_data`: pure read producing null counts and the three
boolean-count quality checks. -/
def explore_data (df : List OrderRow) : ExploreOut :=
  ⟨(df.filter (fun r => r.city = none)).length,
   (df.filter (fun r => r.payment_method = none)).length,
   (df.filter (fun r => r.promo_code_used = none)).length,
   (df.filter (fun r => r.restaurant_category = none)).length,
   (df.filter (fun r => r.order_value = 0)).length,
   (df.filter (fun r => r.delivery_time_min < 0)).length,
   (df.filter (fun r => r.delivery_fee < 0)).length⟩

/-- Distinct keys in ascending order: the key index produced by a pandas
`groupby` (which sorts group keys ascending by default). -/
def sortKeys {α : Type} [DecidableEq α] [LinearOrder α] (xs : List α) : List α :=
  List.insertionSort (fun a b => a ≤ b) xs.dedup

/-- Stable sort of (key, value) pairs by value, descending: pandas
`sort_values(ascending=False)` on a count series. -/
def descBySnd {α β : Type} [LinearOrder β] (l : List (α × β)) : List (α × β) :=
  List.insertionSort (fun a b => b.2 ≤ a.2) l

/-- pandas `value_counts` / `groupby(col).size().sort_values(ascending=False)`:
count occurrences of each (non-null) key, largest counts first.  NaN
keys have already been dropped from `xs` by the caller, matching the
pandas default `dropna=True`. -/
def value_counts {α : Type} [DecidableEq α] [LinearOrder α] (xs : List α) :
    List (α × Nat) :=
  descBySnd ((sortKeys xs).map fun k => (k, xs.count k))

/-- Arithmetic mean of a list of rationals, as pandas `.mean()`
computes it on a nonempty series.  (On an empty series pandas yields
NaN; this embedding yields `0`, a case no claim depends on.) -/
def listMean (l : List ℚ) : ℚ := l.sum / (l.length : ℚ)

/-- Round to one decimal place, as the report's percentage and average
displays do. -/
def round1 (q : ℚ) : ℚ := ((round (10 * q) : ℤ) : ℚ) / 10

/-- `df.groupby('order_date').size()`: one (date, count) entry per
distinct date present in the table, dates ascending. -/
def daily_orders (df : List OrderRow) : List (Date × Nat) :=
  (sortKeys (df.map (fun r => r.order_date))).map
    fun d => (d, (df.map (fun r => r.order_date)).count d)

/-- The order-count column of the daily series. -/
def daily_counts (df : List OrderRow) : List Nat :=
  (daily_orders df).map (fun p => p.2)

/-- `rolling(window=7).mean()` over a count column: entry `i` is null
while fewer than 7 points are available, and otherwise the mean of the
window ending at `i`. -/
def rolling_avg (xs : List Nat) : List (Option ℚ) :=
  (List.range xs.length).map fun i =>
    if i < 6 then none
    else some ((((xs.drop (i - 6)).take 7).map (fun (n : ℕ) => (n : ℚ))).sum / 7)

/-- `daily_orders.nlargest(5, 'order_count')`: the first five rows of
the count-descending ordering (ties keep their grouped order). -/
def top5_busiest (df : List OrderRow) : List (Date × Nat) :=
  (descBySnd (daily_orders df)).take 5

/-- Everything `analyze_daily_trends` computes and prints. -/
structure DailyOut where
  series : List (Date × Nat)
  rolling : List (Option ℚ)
  totalDays : Nat
  avgPerDay : ℚ
  maxDay : Option Nat
  minDay : Option Nat
  top5 : List (Date × Nat)
deriving DecidableEq, Repr

def analyze_daily_trends (df : List OrderRow) : DailyOut :=
  ⟨daily_orders df,
   rolling_avg (daily_counts df),
   (daily_orders df).length,
   listMean ((daily_counts df).map (fun (n : ℕ) => (n : ℚ))),
   (daily_counts df).max?,
   (daily_counts df).min?,
   top5_busiest df⟩

/-- Rows that survive a `groupby` keyed (in part) on `city`: pandas
drops rows whose group key is NaN. -/
def city_rows (df : List OrderRow) : List OrderRow :=
  df.filter (fun r => r.city.isSome)

/-- `df.groupby('city').size().sort_values(ascending=False)`. -/
def city_stats (df : List OrderRow) : List (String × Nat) :=
  value_counts (df.filterMap (fun r => r.city))

/-- `df.groupby(['order_date', 'city']).size()`: one entry per
(date, city) pair present among rows with a non-null city, ordered
lexicographically by (date, city) as a sorted multi-key groupby is. -/
def city_trends (df : List OrderRow) : List (Date × String × Nat) :=
  (sortKeys ((city_rows df).map (fun r => r.order_date))).flatMap fun d =>
    (sortKeys (((city_rows df).filter (fun r => r.order_date = d)).filterMap
        (fun r => r.city))).map fun c =>
      (d, c, ((city_rows df).filter
        (fun r => r.order_date = d ∧ r.city = some c)).length)

/-- `city_trends.groupby('city')['order_count'].mean().sort_values(ascending=False)`:
per-city mean of the per-(date, city) counts, largest mean first. -/
def avg_daily_city (df : List OrderRow) : List (String × ℚ) :=
  descBySnd ((sortKeys ((city_trends df).map (fun e => e.2.1))).map fun c =>
    (c, listMean (((city_trends df).filter (fun e => e.2.1 = c)).map
      (fun e => (e.2.2 : ℚ)))))

/-- The per-city averages as printed: `.round(1)` applied for display. -/
def avg_daily_city_display (df : List OrderRow) : List (String × ℚ) :=
  (avg_daily_city df).map fun p => (p.1, round1 p.2)

/-- Everything `analyze_city_trends` computes and prints. -/
structure CityOut where
  cityStats : List (String × Nat)
  trends : List (Date × String × Nat)
  avgDaily : List (String × ℚ)
  avgDailyDisplay : List (String × ℚ)
deriving DecidableEq, Repr

def analyze_city_trends (df : List OrderRow) : CityOut :=
  ⟨city_stats df, city_trends df, avg_daily_city df, avg_daily_city_display df⟩

/-- Percentage of the full table, as every report line computes it:
`count / len(df) * 100`. -/
def pct (df : List OrderRow) (count : Nat) : ℚ :=
  (count : ℚ) / (df.length : ℚ) * 100

/-- `df['payment_method'].value_counts()` (NaN dropped). -/
def payment_dist (df : List OrderRow) : List (String × Nat) :=
  value_counts (df.filterMap (fun r => r.payment_method))

/-- `df['promo_code_used'].value_counts()` (NaN dropped). -/
def promo_dist (df : List OrderRow) : List (Bool × Nat) :=
  value_counts (df.filterMap (fun r => r.promo_code_used))

/-- `df['restaurant_category'].value_counts()` (NaN dropped). -/
def category_counts (df : List OrderRow) : List (String × Nat) :=
  value_counts (df.filterMap (fun r => r.restaurant_category))

/-- `value_counts().head()`: the top five restaurant categories. -/
def top_categories (df : List OrderRow) : List (String × Nat) :=
  (category_counts df).take 5

/-- pandas `.median()`: middle element of the sorted values, or the
mean of the two middle elements for an even count; NaN (`none`) on an
empty series. -/
def median (l : List ℚ) : Option ℚ :=
  let s := List.insertionSort (fun a b : ℚ => a ≤ b) l
  if l.length = 0 then none
  else if l.length % 2 = 1 then some (s.getD (l.length / 2) 0)
  else some ((s.getD (l.length / 2 - 1) 0 + s.getD (l.length / 2) 0) / 2)

/-- Everything `analyze_business_insights` computes and prints; the
`Pcts` fields are the displayed `count/len(df)*100` values rounded to
one decimal. -/
structure InsightsOut where
  avgOrderValue : ℚ
  medianOrderValue : Option ℚ
  totalRevenue : ℚ
  avgDeliveryTime : ℚ
  avgDeliveryFee : ℚ
  paymentDist : List (String × Nat)
  paymentPcts : List (String × ℚ)
  promoDist : List (Bool × Nat)
  promoPcts : List (Bool × ℚ)
  topCategories : List (String × Nat)
  topCategoryPcts : List (String × ℚ)
deriving DecidableEq, Repr

def analyze_business_insights (df : List OrderRow) : InsightsOut :=
  ⟨listMean (df.map (fun r => r.order_value)),
   median (df.map (fun r => r.order_value)),
   (df.map (fun r => r.order_value)).sum,
   listMean (df.map (fun r => r.delivery_time_min)),
   listMean (df.map (fun r => r.delivery_fee)),
   payment_dist df,
   (payment_dist df).map (fun p => (p.1, round1 (pct df p.2))),
   promo_dist df,
   (promo_dist df).map (fun p => (p.1, round1 (pct df p.2))),
   top_categories df,
   (top_categories df).map (fun p => (p.1, round1 (pct df p.2)))⟩

/-- Run-time environment of one execution: the input file read (which
can fail with an I/O error), the two `savefig` calls (which can fail
with a rendering/output error), and the wall clock sampled by the two
`datetime.now()` calls in `main`. -/
structure Env where
  readFile : Except Err (List RawOrderRow)
  render1 : Except Err Unit
  render2 : Except Err Unit
  clockStart : Nat
  clockEnd : Nat

/-- `create_visualizations`: renders the two charts from the daily and
city series; each `savefig` may fail, aborting the run. -/
def create_visualizations (env : Env) (daily : DailyOut) (city : CityOut) :
    Except Err Unit :=
  let _ := daily
  let _ := city
  Except.bind env.render1 fun _ => env.render2

/-- The console report of one successful run: start/end timestamps
around the computed statistics, in pipeline order. -/
structure MainOut where
  startedAt : Nat
  explore : ExploreOut
  daily : DailyOut
  city : CityOut
  insights : InsightsOut
  finishedAt : Nat
deriving DecidableEq, Repr

/-- `main`: the fixed six-stage pipeline.  No stage catches errors;
any failure propagates and aborts the whole run. -/
def main (env : Env) : Except Err MainOut :=
  Except.bind env.readFile fun rows =>
    Except.bind (load_and_prepare_data rows) fun df =>
      let ex := explore_data df
      let daily := analyze_daily_trends df
      let city := analyze_city_trends df
      Except.bind (create_visualizations env daily city) fun _ =>
        let ins := analyze_business_insights df
        Except.ok ⟨env.clockStart, ex, daily, city, ins, env.clockEnd⟩

/-- The computed statistics of a run, with the wall-clock samples
stripped. -/
def statsOf (m : MainOut) : ExploreOut × DailyOut × CityOut × InsightsOut :=
  (m.explore, m.daily, m.city, m.insights)

/-- Each analysis stage viewed as (table in, table out, output): the
Python functions only read `df`, so each returns the table it
received. -/
def explore_stage (df : List OrderRow) : List OrderRow × ExploreOut :=
  (df, explore_data df)

def daily_stage (df : List OrderRow) : List OrderRow × DailyOut :=
  (df, analyze_daily_trends df)

def city_stage (df : List OrderRow) : List OrderRow × CityOut :=
  (df, analyze_city_trends df)

def insights_stage (df : List OrderRow) : List OrderRow × InsightsOut :=
  (df, analyze_business_insights df)

/-- The order table as seen after the last pipeline stage, threading it
through every downstream component. -/
def pipelineTable (df : List OrderRow) : List OrderRow :=
  (insights_stage (city_stage (daily_stage (explore_stage df).1).1).1).1

/-! ### Concrete tables used to exercise the theorems -/

/-- A fully populated order placed on day `d`. -/
def rowOn (d : Date) : OrderRow :=
  ⟨d * secondsPerDay, d, some "Dubai", 50, 30, 5, some "Card", some true,
   some "FastFood"⟩

/-- An order on day `d` whose `city` cell is missing. -/
def rowNoCity (d : Date) : OrderRow :=
  ⟨d * secondsPerDay, d, none, 50, 30, 5, some "Card", some true,
   some "FastFood"⟩

/-- An order on day `d` whose `payment_method` cell is missing. -/
def rowNoPay (d : Date) : OrderRow :=
  ⟨d * secondsPerDay, d, some "Dubai", 50, 30, 5, none, some true,
   some "FastFood"⟩

/-- Seven consecutive days of orders, two of them on day 6. -/
def dfW1 : List OrderRow :=
  [rowOn 0, rowOn 1, rowOn 2, rowOn 3, rowOn 4, rowOn 5, rowOn 6, rowOn 6]

/-- Orders on day 0 and day 2 only: day 1 lies strictly inside the date
range but has no orders. -/
def dfC2 : List OrderRow := [rowOn 0, rowOn 2]

/-- A single order whose `city` is missing. -/
def dfC3 : List OrderRow := [rowNoCity 0]

/-- Two orders with every categorical cell populated. -/
def dfW3 : List OrderRow := [rowOn 0, rowOn 1]

/-- Two orders, one of which is missing its `payment_method`. -/
def dfC4 : List OrderRow := [rowNoPay 0, rowOn 0]

/-- Six distinct days; day 0 has three orders, the rest one each. -/
def dfW5 : List OrderRow :=
  [rowOn 0, rowOn 0, rowOn 0, rowOn 1, rowOn 2, rowOn 3, rowOn 4, rowOn 5]

/-- A raw CSV with a single parseable row (timestamp 90000 s, i.e. day 1). -/
def rowsW6 : List RawOrderRow :=
  [⟨some 90000, some "Dubai", 50, 30, 5, some "Card", some true, some "FastFood"⟩]

/-- The row the loader derives from `rowsW6`. -/
def rowW6 : OrderRow :=
  ⟨90000, 1, some "Dubai", 50, 30, 5, some "Card", some true, some "FastFood"⟩

/-- Two healthy environments for the same input that differ only in the
wall-clock samples. -/
def envA : Env := ⟨.ok rowsW6, .ok (), .ok (), 10, 20⟩

def envB : Env := ⟨.ok rowsW6, .ok (), .ok (), 30, 40⟩

/-- An environment whose input file cannot be read. -/
def envC8 : Env := ⟨.error .ioError, .ok (), .ok (), 0, 0⟩

/-- Two orders on day 0 and one on day 1, all in one city. -/
def dfW9 : List OrderRow := [rowOn 0, rowOn 0, rowOn 1]

/-- Two orders, one with a missing `city`. -/
def dfW10 : List OrderRow := [rowNoCity 0, rowOn 0]

end Talabat

namespace Talabat

/-! ### Helper lemmas about the grouping and sorting primitives -/

instance instTotalDescBySnd {α β : Type} [LinearOrder β] :
    IsTotal (α × β) (fun a b => b.2 ≤ a.2) :=
  ⟨fun a b => le_total b.2 a.2⟩

instance instTransDescBySnd {α β : Type} [LinearOrder β] :
    IsTrans (α × β) (fun a b => b.2 ≤ a.2) :=
  ⟨fun _ _ _ h1 h2 => le_trans h2 h1⟩

theorem sortKeys_perm {α : Type} [DecidableEq α] [LinearOrder α] (xs : List α) :
    (sortKeys xs).Perm xs.dedup :=
  List.perm_insertionSort _ _

theorem mem_sortKeys {α : Type} [DecidableEq α] [LinearOrder α] {xs : List α} {a : α} :
    a ∈ sortKeys xs ↔ a ∈ xs :=
  (sortKeys_perm xs).mem_iff.trans List.mem_dedup

theorem nodup_sortKeys {α : Type} [DecidableEq α] [LinearOrder α] (xs : List α) :
    (sortKeys xs).Nodup :=
  (sortKeys_perm xs).nodup_iff.mpr (List.nodup_dedup xs)

theorem sorted_le_sortKeys {α : Type} [DecidableEq α] [LinearOrder α] (xs : List α) :
    (sortKeys xs).Sorted (fun a b => a ≤ b) :=
  List.sorted_insertionSort _ _

theorem sorted_lt_sortKeys {α : Type} [DecidableEq α] [LinearOrder α] (xs : List α) :
    (sortKeys xs).Sorted (fun a b => a < b) :=
  List.Sorted.lt_of_le (sorted_le_sortKeys xs) (nodup_sortKeys xs)

theorem descBySnd_perm {α β : Type} [LinearOrder β] (l : List (α × β)) :
    (descBySnd l).Perm l :=
  List.perm_insertionSort _ _

theorem sorted_descBySnd {α β : Type} [LinearOrder β] (l : List (α × β)) :
    (descBySnd l).Sorted (fun a b => b.2 ≤ a.2) :=
  List.sorted_insertionSort _ _

theorem head_le_of_sorted_le {α : Type} [Preorder α] {l : List α}
    (hs : l.Sorted (fun a b => a ≤ b)) (h : l ≠ []) :
    ∀ x ∈ l, l.head h ≤ x := by
  intro x hx
  match l, h with
  | a :: t, _ =>
    rcases List.mem_cons.mp hx with rfl | hxt
    · exact le_refl _
    · exact List.rel_of_sorted_cons hs x hxt

theorem le_getLast_of_sorted_le {α : Type} [Preorder α] :
    ∀ {l : List α}, l.Sorted (fun a b => a ≤ b) → ∀ (h : l ≠ []),
      ∀ x ∈ l, x ≤ l.getLast h
  | [], _, h => absurd rfl h
  | [a], _, _ => by
    intro x hx
    simp only [List.mem_singleton] at hx
    subst hx
    exact le_refl _
  | a :: b :: u, hs, _ => by
    intro x hx
    rw [List.getLast_cons (List.cons_ne_nil b u)]
    rcases List.mem_cons.mp hx with rfl | hxt
    · exact List.rel_of_sorted_cons hs _ (List.getLast_mem (List.cons_ne_nil b u))
    · exact le_getLast_of_sorted_le hs.of_cons (List.cons_ne_nil b u) x hxt

theorem sum_value_counts {α : Type} [DecidableEq α] [LinearOrder α] (xs : List α) :
    ((value_counts xs).map Prod.snd).sum = xs.length := by
  unfold value_counts
  have h1 : ((descBySnd ((sortKeys xs).map fun k => (k, xs.count k))).map Prod.snd).sum
      = (((sortKeys xs).map fun k => (k, xs.count k)).map Prod.snd).sum :=
    ((descBySnd_perm _).map Prod.snd).sum_eq
  rw [h1, List.map_map]
  have h2 : ((sortKeys xs).map (Prod.snd ∘ fun k => (k, xs.count k))).sum
      = (xs.dedup.map (Prod.snd ∘ fun k => (k, xs.count k))).sum :=
    ((sortKeys_perm xs).map _).sum_eq
  rw [h2]
  simpa using List.sum_map_count_dedup_eq_length xs

theorem length_filterMap_eq_countP {α β : Type} (f : α → Option β) (l : List α) :
    (l.filterMap f).length = l.countP (fun a => (f a).isSome) := by
  induction l with
  | nil => rfl
  | cons a t ih =>
    cases h : f a <;>
      simp [List.filterMap_cons, h, List.countP_cons, ih]

theorem length_filterMap_of_isSome {α β : Type} (f : α → Option β) (l : List α)
    (h : ∀ a ∈ l, (f a).isSome) : (l.filterMap f).length = l.length := by
  rw [length_filterMap_eq_countP]
  exact List.countP_eq_length.mpr h

theorem slice_map_cast (xs : List Nat) (a : Nat) (h : a + 7 ≤ xs.length) :
    ((xs.drop a).take 7).map (fun (n : ℕ) => (n : ℚ)) =
      (List.range 7).map (fun j => ((xs.getD (a + j) 0 : Nat) : ℚ)) := by
  apply List.ext_getElem?
  intro n
  rw [List.getElem?_map, List.getElem?_map, List.getElem?_take, List.getElem?_drop]
  by_cases hn : n < 7
  · have hlen : a + n < xs.length := by omega
    rw [if_pos hn, List.getElem?_eq_getElem hlen, List.getElem?_range hn]
    simp [List.getD_eq_getElem xs 0 hlen, List.getElem?_eq_getElem hlen]
  · rw [if_neg hn, List.getElem?_eq_none (by simpa using hn)]
    rfl

theorem abs_round1_sub_le (q : ℚ) : |round1 q - q| ≤ 1 / 20 := by
  have h := abs_sub_round (10 * q)
  unfold round1
  rw [show ((round (10 * q) : ℤ) : ℚ) / 10 - q
      = -((10 * q - ((round (10 * q) : ℤ) : ℚ)) / 10) by ring, abs_neg, abs_div]
  rw [show |(10 : ℚ)| = 10 by norm_num]
  linarith

theorem abs_sum_map_round1_sub (l : List ℚ) :
    |(l.map round1).sum - l.sum| ≤ (l.length : ℚ) * (1 / 20) := by
  induction l with
  | nil => simp
  | cons a t ih =>
    simp only [List.map_cons, List.sum_cons, List.length_cons]
    have h1 := abs_round1_sub_le a
    have h2 : |round1 a + (t.map round1).sum - (a + t.sum)|
        ≤ |round1 a - a| + |(t.map round1).sum - t.sum| := by
      have := abs_add (round1 a - a) ((t.map round1).sum - t.sum)
      calc |round1 a + (t.map round1).sum - (a + t.sum)|
          = |(round1 a - a) + ((t.map round1).sum - t.sum)| := by ring_nf
        _ ≤ |round1 a - a| + |(t.map round1).sum - t.sum| := this
    have h3 : ((t.length + 1 : Nat) : ℚ) = (t.length : ℚ) + 1 := by push_cast; ring
    rw [h3]
    calc |round1 a + (t.map round1).sum - (a + t.sum)|
        ≤ |round1 a - a| + |(t.map round1).sum - t.sum| := h2
      _ ≤ 1 / 20 + (t.length : ℚ) * (1 / 20) := add_le_add h1 ih
      _ = ((t.length : ℚ) + 1) * (1 / 20) := by ring

end Talabat

namespace Talabat

/-! ### Lemmas specific to the daily series -/

theorem keys_daily_orders (df : List OrderRow) :
    (daily_orders df).map Prod.fst = sortKeys (df.map fun r => r.order_date) := by
  unfold daily_orders
  rw [List.map_map]
  exact List.map_id _

theorem rolling_avg_getElem (xs : List Nat) (i : Nat) (hi : i < xs.length) :
    (i < 6 → (rolling_avg xs)[i]? = some none) ∧
    (6 ≤ i → (rolling_avg xs)[i]? =
      some (some (((List.range 7).map
        (fun j => ((xs.getD (i - 6 + j) 0 : Nat) : ℚ))).sum / 7))) := by
  unfold rolling_avg
  rw [List.getElem?_map, List.getElem?_range hi]
  constructor
  · intro h6
    simp [h6]
  · intro h6
    have hnot : ¬ i < 6 := by omega
    have hslice := slice_map_cast xs (i - 6) (by omega)
    have harg : ∀ j : Nat, i - 6 + j = i - 6 + j := fun _ => rfl
    simp only [Option.map_some', if_neg hnot]
    rw [hslice]

/-- Claim C1: in the daily series returned by `analyze_daily_trends`
(dates ascending), the rolling average at index `i` is null for every
`i < 6`, and for every `i ≥ 6` it equals the arithmetic mean of the
order counts at indices `i-6` through `i` inclusive. -/
theorem C1_rolling_average (df : List OrderRow) (i : Nat)
    (hi : i < (daily_counts df).length) :
    (i < 6 → (rolling_avg (daily_counts df))[i]? = some none) ∧
    (6 ≤ i → (rolling_avg (daily_counts df))[i]? =
      some (some (((List.range 7).map
        (fun j => (((daily_counts df).getD (i - 6 + j) 0 : Nat) : ℚ))).sum / 7))) :=
  rolling_avg_getElem (daily_counts df) i hi

/-- Witness for C1: at the 8-row table `dfW1` (7 distinct days) and
index 6, the rolling average is the 7-window mean. -/
theorem C1_witness :
    (rolling_avg (daily_counts dfW1))[6]? =
      some (some (((List.range 7).map
        (fun j => (((daily_counts dfW1).getD (6 - 6 + j) 0 : Nat) : ℚ))).sum / 7)) :=
  (C1_rolling_average dfW1 6 (by decide)).2 (by decide)

/-- Claim C2, amended: the daily series has exactly one entry per
distinct `order_date` present in the table (a date appears in the
series iff some row has it), its dates are strictly ascending with no
duplicates, its first date is a lower bound and its last date an upper
bound of all present dates (so it spans exactly the minimum to maximum
present date).  The original claim additionally required every calendar
date inside that range to appear; `C2_counterexample` shows dates with
no orders are omitted. -/
theorem C2_daily_series (df : List OrderRow) :
    (∀ d : Date, d ∈ (daily_orders df).map Prod.fst ↔
      d ∈ df.map (fun r => r.order_date)) ∧
    ((daily_orders df).map Prod.fst).Nodup ∧
    ((daily_orders df).map Prod.fst).Sorted (fun a b => a < b) ∧
    (∀ x : Date, ∀ d ∈ df.map (fun r => r.order_date),
      (((daily_orders df).map Prod.fst).head? = some x → x ≤ d) ∧
      (((daily_orders df).map Prod.fst).getLast? = some x → d ≤ x)) := by
  rw [keys_daily_orders]
  refine ⟨fun d => mem_sortKeys, nodup_sortKeys _, sorted_lt_sortKeys _, ?_⟩
  intro x d hd
  constructor
  · intro hh
    have hne : sortKeys (df.map fun r => r.order_date) ≠ [] := by
      intro h0
      rw [h0] at hh
      exact Option.noConfusion hh
    have hx : x = (sortKeys (df.map fun r => r.order_date)).head hne := by
      have := List.head?_eq_head hne
      rw [this] at hh
      exact (Option.some.inj hh).symm
    rw [hx]
    exact head_le_of_sorted_le (sorted_le_sortKeys _) hne d (mem_sortKeys.mpr hd)
  · intro hh
    have hne : sortKeys (df.map fun r => r.order_date) ≠ [] := by
      intro h0
      rw [h0] at hh
      exact Option.noConfusion hh
    have hx : x = (sortKeys (df.map fun r => r.order_date)).getLast hne := by
      have := List.getLast?_eq_getLast _ hne
      rw [this] at hh
      exact (Option.some.inj hh).symm
    rw [hx]
    exact le_getLast_of_sorted_le (sorted_le_sortKeys _) hne d (mem_sortKeys.mpr hd)

/-- Counterexample to C2 as stated: in `dfC2` the present order dates
are 0 and 2, so the daily series is [0, 2]; calendar date 1 lies inside
the spanned range but has no orders and is omitted (the gap is
skipped). -/
theorem C2_counterexample :
    dfC2.map (fun r => r.order_date) = [0, 2] ∧
    (daily_orders dfC2).map Prod.fst = [0, 2] ∧
    ¬ (∀ d : Date, 0 ≤ d → d ≤ 2 → d ∈ (daily_orders dfC2).map Prod.fst) := by
  refine ⟨by decide, by decide, fun h => ?_⟩
  exact absurd (h 1 (by decide) (by decide)) (by decide)

/-- Witness for C2 at `dfW1`: date 3 is present, and the head of the
series bounds it from below. -/
theorem C2_witness :
    (((daily_orders dfW1).map Prod.fst).head? = some 0 → (0 : Date) ≤ 3) ∧
    (((daily_orders dfW1).map Prod.fst).getLast? = some 0 → (3 : Date) ≤ 0) :=
  (C2_daily_series dfW1).2.2.2 0 3 (by decide)

/-- Claim C3, amended: the per-city totals of `analyze_city_trends` sum
to the number of rows with a non-null `city` — which equals the total
row count exactly when no `city` value is missing.  The original
unconditional claim fails on tables with missing cities
(`C3_counterexample`). -/
theorem C3_city_totals (df : List OrderRow) :
    ((city_stats df).map Prod.snd).sum = (df.filterMap (fun r => r.city)).length ∧
    ((∀ r ∈ df, (r.city).isSome) →
      ((city_stats df).map Prod.snd).sum = df.length) := by
  have h1 : ((city_stats df).map Prod.snd).sum =
      (df.filterMap (fun r => r.city)).length := sum_value_counts _
  exact ⟨h1, fun h => h1.trans (length_filterMap_of_isSome _ _ h)⟩

/-- Counterexample to C3 as stated: `dfC3` has one row whose `city` is
missing; pandas drops it from the groupby, so the city totals sum to 0
while the table has 1 row. -/
theorem C3_counterexample :
    ((city_stats dfC3).map Prod.snd).sum ≠ dfC3.length := by
  decide

/-- Witness for C3 at `dfW3`, where every `city` is present. -/
theorem C3_witness : ((city_stats dfW3).map Prod.snd).sum = dfW3.length :=
  (C3_city_totals dfW3).2 (by decide)

end Talabat

namespace Talabat

theorem length_filterMap_eq_length_filter {α β : Type} [DecidableEq β] (f : α → Option β)
    (l : List α) :
    (l.filterMap f).length = (l.filter (fun a => f a ≠ none)).length := by
  rw [length_filterMap_eq_countP, ← List.countP_eq_length_filter]
  refine List.countP_congr ?_
  intro a _
  cases f a <;> simp

/-- Claim C4, amended: the reported per-payment-method counts sum to
the number of rows whose `payment_method` is present (equal to the
total row count only when none is missing — `C4_counterexample` shows
the unconditional claim fails); every reported percentage is
`count / len(df) * 100` rounded to one decimal; and when every
`payment_method` is present and the table is nonempty, the exact
percentages sum to 100 and the rounded ones differ from 100 by at most
`k/20` where `k` is the number of categories. -/
theorem C4_payment_percentages (df : List OrderRow) :
    ((payment_dist df).map Prod.snd).sum =
      (df.filterMap (fun r => r.payment_method)).length ∧
    (analyze_business_insights df).paymentPcts =
      (payment_dist df).map
        (fun p => (p.1, round1 ((p.2 : ℚ) / (df.length : ℚ) * 100))) ∧
    ((∀ r ∈ df, (r.payment_method).isSome) → df ≠ [] →
      ((payment_dist df).map
        (fun p => (p.2 : ℚ) / (df.length : ℚ) * 100)).sum = 100 ∧
      |((payment_dist df).map
          (fun p => round1 ((p.2 : ℚ) / (df.length : ℚ) * 100))).sum - 100|
        ≤ ((payment_dist df).length : ℚ) * (1 / 20)) := by
  have h1 : ((payment_dist df).map Prod.snd).sum =
      (df.filterMap (fun r => r.payment_method)).length := sum_value_counts _
  refine ⟨h1, rfl, ?_⟩
  intro hall hne
  have hsum : ((payment_dist df).map Prod.snd).sum = df.length :=
    h1.trans (length_filterMap_of_isSome _ _ hall)
  have hN : ((df.length : Nat) : ℚ) ≠ 0 := by
    have h0 : df.length ≠ 0 := by
      simpa [List.length_eq_zero] using hne
    exact_mod_cast h0
  have hcast : ((payment_dist df).map (fun p => ((p.2 : Nat) : ℚ))).sum
      = ((df.length : Nat) : ℚ) := by
    have hmm : (payment_dist df).map (fun p => ((p.2 : Nat) : ℚ))
        = ((payment_dist df).map Prod.snd).map (fun n : ℕ => (n : ℚ)) := by
      rw [List.map_map]
      rfl
    rw [hmm, ← Nat.cast_list_sum, hsum]
  have hexact : ((payment_dist df).map
      (fun p => (p.2 : ℚ) / (df.length : ℚ) * 100)).sum = 100 := by
    rw [show (payment_dist df).map
          (fun p => (p.2 : ℚ) / (df.length : ℚ) * 100)
        = (payment_dist df).map
          (fun p => ((p.2 : Nat) : ℚ) * (100 / (df.length : ℚ))) from
      List.map_congr_left (fun p _ => by ring)]
    rw [List.sum_map_mul_right, hcast]
    field_simp
  refine ⟨hexact, ?_⟩
  have hmm2 : (payment_dist df).map
      (fun p => round1 ((p.2 : ℚ) / (df.length : ℚ) * 100))
      = ((payment_dist df).map
          (fun p => (p.2 : ℚ) / (df.length : ℚ) * 100)).map round1 := by
    rw [List.map_map]
    rfl
  rw [hmm2]
  have hb := abs_sum_map_round1_sub
    ((payment_dist df).map (fun p => (p.2 : ℚ) / (df.length : ℚ) * 100))
  rw [hexact] at hb
  simpa [List.length_map] using hb

/-- Counterexample to C4 as stated: in `dfC4` one of the two rows has a
missing `payment_method`, so the reported counts sum to 1 while the
table has 2 rows. -/
theorem C4_counterexample :
    ((payment_dist dfC4).map Prod.snd).sum ≠ dfC4.length := by
  decide

/-- Witness for C4 at `dfW3` (every `payment_method` present, nonempty
table). -/
theorem C4_witness :
    ((payment_dist dfW3).map
      (fun p => (p.2 : ℚ) / (dfW3.length : ℚ) * 100)).sum = 100 ∧
    |((payment_dist dfW3).map
        (fun p => round1 ((p.2 : ℚ) / (dfW3.length : ℚ) * 100))).sum - 100|
      ≤ ((payment_dist dfW3).length : ℚ) * (1 / 20) :=
  (C4_payment_percentages dfW3).2.2 (by decide) (by decide)

/-- Claim C5: the top-5 busiest days are five entries of the daily
series (when at least five days exist), and together with the dropped
remainder of the count-descending ordering they form a permutation of
the series; every reported entry's count is at least every unreported
entry's count.  The tie-break order is whatever the stable descending
sort produces, as the claim allows. -/
theorem C5_top5_busiest (df : List OrderRow) :
    (5 ≤ (daily_orders df).length → (top5_busiest df).length = 5) ∧
    (∀ p ∈ top5_busiest df, p ∈ daily_orders df) ∧
    (top5_busiest df ++ (descBySnd (daily_orders df)).drop 5).Perm
      (daily_orders df) ∧
    (∀ p ∈ top5_busiest df, ∀ q ∈ (descBySnd (daily_orders df)).drop 5,
      q.2 ≤ p.2) := by
  refine ⟨?_, ?_, ?_, ?_⟩
  · intro h
    unfold top5_busiest
    rw [List.length_take, descBySnd, List.length_insertionSort]
    omega
  · intro p hp
    exact (descBySnd_perm _).mem_iff.mp (List.mem_of_mem_take hp)
  · rw [top5_busiest, List.take_append_drop]
    exact descBySnd_perm _
  · intro p hp q hq
    have hs := sorted_descBySnd (daily_orders df)
    rw [← List.take_append_drop 5 (descBySnd (daily_orders df))] at hs
    exact (List.pairwise_append.mp hs).2.2 p hp q hq

/-- Witness for C5 at `dfW5` (six distinct days, day 0 busiest): the
report has exactly five entries and the dropped entry's count is
bounded by a reported one. -/
theorem C5_witness :
    (top5_busiest dfW5).length = 5 ∧
    (((5 : Date), 1) : Date × Nat).2 ≤ (((0 : Date), 3) : Date × Nat).2 :=
  ⟨(C5_top5_busiest dfW5).1 (by decide),
   (C5_top5_busiest dfW5).2.2.2 (0, 3) (by decide) (5, 1) (by decide)⟩

end Talabat

namespace Talabat

/-- Claim C6: every row of the loaded table has
`order_date = order_datetime` truncated to the calendar day, and the
table seen by every downstream stage is the loaded table itself (no
stage modifies it), so the invariant persists through the pipeline. -/
theorem C6_order_date_invariant (rows : List RawOrderRow) (df : List OrderRow)
    (h : load_and_prepare_data rows = .ok df) :
    (∀ r ∈ df, r.order_date = r.order_datetime / secondsPerDay) ∧
    pipelineTable df = df ∧
    (∀ r ∈ pipelineTable df, r.order_date = r.order_datetime / secondsPerDay) := by
  have hmain : ∀ r ∈ df, r.order_date = r.order_datetime / secondsPerDay := by
    intro r hr
    unfold load_and_prepare_data at h
    by_cases hc : rows.all (fun x => x.order_datetime.isSome) = true
    · rw [if_pos hc] at h
      have hdf : rows.filterMap prepareRow = df := Except.ok.inj h
      rw [← hdf] at hr
      obtain ⟨a, _, ha⟩ := List.mem_filterMap.mp hr
      unfold prepareRow at ha
      cases hdt : a.order_datetime with
      | none =>
        rw [hdt] at ha
        simp at ha
      | some t =>
        rw [hdt] at ha
        simp only [Option.map_some'] at ha
        have h2 := Option.some.inj ha
        rw [← h2]
    · rw [if_neg hc] at h
      exact absurd h (by simp)
  exact ⟨hmain, rfl, fun r hr => hmain r hr⟩

/-- Witness for C6: loading the one-row CSV `rowsW6` yields `rowW6`,
whose derived date is its timestamp divided by the seconds per day. -/
theorem C6_witness : rowW6.order_date = rowW6.order_datetime / secondsPerDay :=
  (C6_order_date_invariant rowsW6 [rowW6] rfl).1 rowW6 (by decide)

/-- Claim C7: two runs over the same input file whose renders succeed
produce identical computed statistics — the aggregation depends only on
the input rows, not on the wall clock or any other run-time state. -/
theorem C7_deterministic (e1 e2 : Env) (hread : e1.readFile = e2.readFile)
    (h11 : e1.render1 = .ok ()) (h12 : e1.render2 = .ok ())
    (h21 : e2.render1 = .ok ()) (h22 : e2.render2 = .ok ()) :
    (main e1).map statsOf = (main e2).map statsOf := by
  unfold main create_visualizations
  rw [← hread]
  cases hr : e1.readFile with
  | error e => rfl
  | ok rows =>
    simp only [Except.bind]
    cases hl : load_and_prepare_data rows with
    | error e => rfl
    | ok df =>
      simp only [Except.bind]
      rw [h11, h21]
      simp only [Except.bind]
      rw [h12, h22]
      rfl

/-- Witness for C7: the environments `envA` and `envB` read the same
file but sample different clocks; the statistics agree. -/
theorem C7_witness : (main envA).map statsOf = (main envB).map statsOf :=
  C7_deterministic envA envB rfl rfl rfl rfl rfl

theorem load_error_of_unparsable (rows : List RawOrderRow)
    (h : ∃ r ∈ rows, r.order_datetime = none) :
    load_and_prepare_data rows = .error .formatError := by
  obtain ⟨r, hr, hnone⟩ := h
  have hcond : ¬ (rows.all (fun x => x.order_datetime.isSome) = true) := by
    rw [List.all_eq_true]
    intro hall
    have h2 := hall r hr
    rw [hnone] at h2
    simp at h2
  unfold load_and_prepare_data
  rw [if_neg hcond]

/-- Claim C8: no stage catches errors.  An unreadable input file, an
unparsable timestamp, or a failing render each aborts the whole run
with that very error, nothing after the failed stage contributes to the
output, and a successful run certifies that every stage succeeded (no
partial-result mode). -/
theorem C8_fail_fast (env : Env) :
    (∀ e, env.readFile = .error e → main env = .error e) ∧
    (∀ rows, env.readFile = .ok rows → (∃ r ∈ rows, r.order_datetime = none) →
      main env = .error .formatError) ∧
    (∀ rows df e, env.readFile = .ok rows →
      load_and_prepare_data rows = .ok df → env.render1 = .error e →
      main env = .error e) ∧
    (∀ rows df e, env.readFile = .ok rows →
      load_and_prepare_data rows = .ok df → env.render1 = .ok () →
      env.render2 = .error e → main env = .error e) ∧
    (∀ out, main env = .ok out →
      ∃ rows df, env.readFile = .ok rows ∧
        load_and_prepare_data rows = .ok df ∧
        env.render1 = .ok () ∧ env.render2 = .ok () ∧
        out = ⟨env.clockStart, explore_data df, analyze_daily_trends df,
               analyze_city_trends df, analyze_business_insights df,
               env.clockEnd⟩) := by
  refine ⟨?_, ?_, ?_, ?_, ?_⟩
  · intro e he
    unfold main
    rw [he]
    rfl
  · intro rows hrows hex
    unfold main
    rw [hrows]
    simp only [Except.bind]
    rw [load_error_of_unparsable rows hex]
  · intro rows df e hrows hload hrender
    unfold main create_visualizations
    rw [hrows]
    simp only [Except.bind]
    rw [hload]
    simp only [Except.bind]
    rw [hrender]
  · intro rows df e hrows hload h1 h2
    unfold main create_visualizations
    rw [hrows]
    simp only [Except.bind]
    rw [hload]
    simp only [Except.bind]
    rw [h1]
    simp only [Except.bind]
    rw [h2]
  · intro out hout
    unfold main create_visualizations at hout
    cases hr : env.readFile with
    | error e =>
      rw [hr] at hout
      simp only [Except.bind] at hout
      exact Except.noConfusion hout
    | ok rows =>
      rw [hr] at hout
      simp only [Except.bind] at hout
      cases hl : load_and_prepare_data rows with
      | error e =>
        rw [hl] at hout
        simp only [Except.bind] at hout
        exact Except.noConfusion hout
      | ok df =>
        rw [hl] at hout
        simp only [Except.bind] at hout
        cases h1 : env.render1 with
        | error e =>
          rw [h1] at hout
          simp only [Except.bind] at hout
          exact Except.noConfusion hout
        | ok u =>
          cases u
          rw [h1] at hout
          simp only [Except.bind] at hout
          cases h2 : env.render2 with
          | error e =>
            rw [h2] at hout
            simp only [Except.bind] at hout
            exact Except.noConfusion hout
          | ok u2 =>
            cases u2
            rw [h2] at hout
            simp only [Except.bind] at hout
            refine ⟨rows, df, rfl, hl, rfl, rfl, ?_⟩
            exact (Except.ok.inj hout).symm

/-- Witness for C8: the environment `envC8` fails to read its input,
and the whole run aborts with exactly that I/O error. -/
theorem C8_witness : main envC8 = .error .ioError :=
  (C8_fail_fast envC8).1 .ioError rfl

end Talabat

namespace Talabat

/-- Claim C9: every entry of the per-city average series is the
arithmetic mean of that city's per-(date, city) order counts from the
`city_trends` aggregation, the series is sorted by that mean in
descending order, and the displayed series rounds each mean to one
decimal. -/
theorem C9_city_averages (df : List OrderRow) :
    (∀ p ∈ avg_daily_city df,
      ((city_trends df).filter (fun e => e.2.1 = p.1)) ≠ [] ∧
      p.2 = (((city_trends df).filter (fun e => e.2.1 = p.1)).map
          (fun e => (e.2.2 : ℚ))).sum /
        ((((city_trends df).filter (fun e => e.2.1 = p.1)).length : Nat) : ℚ)) ∧
    (avg_daily_city df).Sorted (fun a b => b.2 ≤ a.2) ∧
    avg_daily_city_display df =
      (avg_daily_city df).map (fun p => (p.1, round1 p.2)) := by
  refine ⟨?_, ?_, rfl⟩
  · intro p hp
    unfold avg_daily_city at hp
    have hp2 := (descBySnd_perm _).mem_iff.mp hp
    obtain ⟨c, hc, hcp⟩ := List.mem_map.mp hp2
    subst hcp
    have hc2 : c ∈ (city_trends df).map (fun e => e.2.1) := mem_sortKeys.mp hc
    obtain ⟨e0, he0, hec⟩ := List.mem_map.mp hc2
    constructor
    · exact List.ne_nil_of_mem (List.mem_filter.mpr ⟨he0, by simp [hec]⟩)
    · simp [listMean, List.length_map]
  · unfold avg_daily_city
    exact sorted_descBySnd _

theorem avg_daily_city_dfW9_eval :
    avg_daily_city dfW9 = [("Dubai", (3 : ℚ) / 2)] := by
  have h : city_trends dfW9 = [(0, "Dubai", 2), (1, "Dubai", 1)] := by decide
  unfold avg_daily_city
  rw [h]
  norm_num [sortKeys, descBySnd, listMean, List.insertionSort,
    List.orderedInsert, List.dedup]

/-- Witness for C9: in `dfW9` the city Dubai has per-day counts 2 and
1, and its reported average 3/2 is their mean. -/
theorem C9_witness :
    ((city_trends dfW9).filter (fun e => e.2.1 = "Dubai")) ≠ [] ∧
    ((3 : ℚ) / 2) = (((city_trends dfW9).filter
        (fun e => e.2.1 = "Dubai")).map (fun e => (e.2.2 : ℚ))).sum /
      ((((city_trends dfW9).filter
          (fun e => e.2.1 = "Dubai")).length : Nat) : ℚ) :=
  (C9_city_averages dfW9).1 ("Dubai", (3 : ℚ) / 2)
    (by rw [avg_daily_city_dfW9_eval]; exact List.mem_singleton.mpr rfl)

/-- Claim C10: rows with a missing value in a categorical grouping
column (`city`, `payment_method`, `promo_code_used`,
`restaurant_category`) are excluded from the corresponding group
counts, so those counts sum to the number of rows with the value
present; reported percentages still divide by the full row count; and
when a null is present the group counts sum to strictly less than the
table's row count. -/
theorem C10_null_rows_excluded (df : List OrderRow) :
    ((city_stats df).map Prod.snd).sum =
      (df.filter (fun r => r.city ≠ none)).length ∧
    ((payment_dist df).map Prod.snd).sum =
      (df.filter (fun r => r.payment_method ≠ none)).length ∧
    ((promo_dist df).map Prod.snd).sum =
      (df.filter (fun r => r.promo_code_used ≠ none)).length ∧
    ((category_counts df).map Prod.snd).sum =
      (df.filter (fun r => r.restaurant_category ≠ none)).length ∧
    (analyze_business_insights df).paymentPcts =
      (payment_dist df).map
        (fun p => (p.1, round1 ((p.2 : ℚ) / (df.length : ℚ) * 100))) ∧
    ((∃ r ∈ df, r.city = none) →
      ((city_stats df).map Prod.snd).sum < df.length) := by
  have h1 : ((city_stats df).map Prod.snd).sum =
      (df.filter (fun r => r.city ≠ none)).length :=
    (sum_value_counts _).trans (length_filterMap_eq_length_filter _ _)
  refine ⟨h1,
    (sum_value_counts _).trans (length_filterMap_eq_length_filter _ _),
    (sum_value_counts _).trans (length_filterMap_eq_length_filter _ _),
    (sum_value_counts _).trans (length_filterMap_eq_length_filter _ _),
    rfl, ?_⟩
  rintro ⟨r, hr, hnone⟩
  rw [h1, ← List.countP_eq_length_filter]
  have hle := List.countP_le_length (fun x : OrderRow => decide (x.city ≠ none))
    (l := df)
  have hne2 : List.countP (fun x : OrderRow => decide (x.city ≠ none)) df
      ≠ df.length := by
    intro heq
    have h3 := List.countP_eq_length.mp heq r hr
    rw [hnone] at h3
    simp at h3
  omega

/-- Witness for C10: `dfW10` has a row with a missing `city`, so the
city totals sum to strictly less than the row count. -/
theorem C10_witness : ((city_stats dfW10).map Prod.snd).sum < dfW10.length :=
  (C10_null_rows_excluded dfW10).2.2.2.2.2 ⟨rowNoCity 0, by decide, rfl⟩

end Talabat
